import Mathlib

/-!
Shallow embedding of the Streamline editor core (Rust sources under src/).

Modelling conventions:
- `HashMap<i64, Module>` is represented as a `List (Int × Module)` holding the
  entries in the (fixed but arbitrary) order in which the map iterates them;
  `modules.values()` / `module_map.iter()` walk this list front to back and
  `iter().find(...)` is `List.find?`.
- A Rust `panic!` inside code generation is modelled as `Except.error msg`
  where `msg` is the formatted panic message: the panic aborts the whole
  generation pass and yields no partial text, exactly as an `Except.error`
  carries no output string.
- `serde_json::Value` is the inductive `Value` (numbers are modelled as `Int`;
  no claim inspects numeric payloads).
- The scripting runtime (rhai) and the streaming client are external
  collaborators: their operations appear as function parameters of the worker
  handlers (`compile`, `optimize`, `evalAst`, `callFn`, `deser`, ...), while
  the control flow around them is translated from `src/src/lib.rs`.
- Cross-thread messages keep their source names: `GuiMessage.PushMessage`
  surfaces in the GUI as `MessageKind.TextMessage` and `GuiMessage.PushJson`
  as `MessageKind.JsonMessage` (lib.rs, the `gui_receiver` drain loop).
-/

namespace Streamline

/-- JSON values, after serde_json::Value. -/
inductive Value where
  | null : Value
  | bool (b : Bool) : Value
  | num (n : Int) : Value
  | str (s : String) : Value
  | arr (xs : List Value) : Value
  | obj (kvs : List (String × Value)) : Value

/-- Module, from src/src/modules.rs: a Map or a Store processing unit. -/
inductive Module where
  | Map (name : String) (code : String) (inputs : List String) (editing : Bool)
  | Store (name : String) (code : String) (inputs : List String)
      (update_policy : String) (editing : Bool)
deriving DecidableEq

/-- Module::name. -/
def Module.name : Module → String
  | .Map name _ _ _ => name
  | .Store name _ _ _ _ => name

/-- Module::code. -/
def Module.code : Module → String
  | .Map _ code _ _ => code
  | .Store _ code _ _ _ => code

/-- Module::inputs. -/
def Module.inputs : Module → List String
  | .Map _ _ inputs _ => inputs
  | .Store _ _ inputs _ _ => inputs

/-- The module graph: entries of the `HashMap<i64, Module>` in iteration
order. -/
abbrev ModuleMap := List (Int × Module)

/-- Module::generate_input_code (src/src/modules.rs). Resolves one declared
input against the graph; the Rust panic on an unknown input is an
`Except.error` carrying the panic message. -/
def generate_input_code (input : String) (module_map : ModuleMap) :
    Except String String :=
  match module_map.find? (fun p => p.2.name == input) with
  | some (_, Module.Map name _ _ _) =>
      .ok ("#\x7bkind: \"map\", name: \"" ++ name ++ "\"\x7d")
  | some (_, Module.Store name _ _ _ _) =>
      .ok ("#\x7bkind: \"store\", name: \"" ++ name ++ "\"\x7d")
  | none =>
      if input == "BLOCK" then .ok "#\x7bkind: \"source\"\x7d"
      else .error ("Unknown input: " ++ input)

/-- The registration function chosen in Module::register_module:
add_mfn for a Map, add_sfn for a Store. -/
def register_function : Module → String
  | .Map _ _ _ _ => "add_mfn"
  | .Store _ _ _ _ _ => "add_sfn"

/-- The format! template of Module::register_module, with the braces of the
generated script written as escapes. -/
def registration_format (rf name input_code : String) : String :=
  "\n" ++ rf ++ "(#\x7b\n    name: \"" ++ name ++ "\",\n    inputs: ["
    ++ input_code ++ "],\n    handler: \"" ++ name ++ "\"\n\x7d);\n"

/-- Rust iterator map + collect over a fallible (panicking) body: stops at the
first failing element. -/
def mapExcept {α β ε : Type} (f : α → Except ε β) : List α → Except ε (List β)
  | [] => .ok []
  | a :: as =>
    match f a with
    | .error e => .error e
    | .ok b =>
      match mapExcept f as with
      | .error e => .error e
      | .ok bs => .ok (b :: bs)

/-- Module::register_module (src/src/modules.rs). -/
def register_module (m : Module) (module_map : ModuleMap) :
    Except String String :=
  match mapExcept (fun input => generate_input_code input module_map) m.inputs with
  | .error e => .error e
  | .ok input_codes =>
      .ok (registration_format (register_function m) m.name
            (String.intercalate "," input_codes))

/-- The loop body of EditorState::source_file (src/src/lib.rs): walk the
modules in iteration order, appending registration, code body and a
newline. -/
def source_file_loop (module_map : ModuleMap) (acc : String) :
    ModuleMap → Except String String
  | [] => .ok acc
  | p :: rest =>
    match register_module p.2 module_map with
    | .error e => .error e
    | .ok reg => source_file_loop module_map (acc ++ reg ++ p.2.code ++ "\n") rest

/-- EditorState::source_file restricted to its only input, the module map. -/
def source_file (module_map : ModuleMap) : Except String String :=
  source_file_loop module_map "" module_map

/-- BlockCacheUiState (src/src/block_cache.rs); block_number is a u64 and
cache_index a u8, both defaulting to 0. -/
structure BlockCacheUiState where
  block_number : Nat
  cache_index : Nat

/-- BlockCache (src/src/block_cache.rs): four JSON slots plus UI state. -/
structure BlockCache where
  block_1 : Value
  block_2 : Value
  block_3 : Value
  block_4 : Value
  state : BlockCacheUiState

/-- The derived Default of BlockCache: every slot holds JSON null. -/
def BlockCache.new : BlockCache :=
  ⟨Value.null, Value.null, Value.null, Value.null, ⟨0, 0⟩⟩

/-- BlockCache::set. The slot argument is a u8, so callers range over
0 ≤ block < 256; the wildcard arm only logs and changes nothing. -/
def BlockCache.set (c : BlockCache) (block : Nat) (value : Value) : BlockCache :=
  match block with
  | 1 => { c with block_1 := value }
  | 2 => { c with block_2 := value }
  | 3 => { c with block_3 := value }
  | 4 => { c with block_4 := value }
  | _ => c

/-- BlockCache::get. The wildcard arm logs and returns a reference to
Value::Null. -/
def BlockCache.get (c : BlockCache) (block : Nat) : Value :=
  match block with
  | 1 => c.block_1
  | 2 => c.block_2
  | 3 => c.block_3
  | 4 => c.block_4
  | _ => Value.null

/-- WorkerMessage (src/src/tasks.rs): requests to the execution worker. -/
inductive WorkerMessage where
  | Eval (code : String)
  | EvalWithArgs (fn_name : String) (args : List Value)
  | Reset
  | Build

/-- GuiMessage (src/src/tasks.rs): outbound messages to the gui thread.
PushMessage surfaces as a TextMessage, PushJson as a JsonMessage. -/
inductive GuiMessage where
  | PushMessage (s : String)
  | PushJson (s : String)
  | SetBlock (slot : Nat) (data : String)
  | ClearMessages
deriving DecidableEq

/-- MessageKind (src/src/tasks.rs): what the gui message log stores. -/
inductive MessageKind where
  | JsonMessage (v : Value)
  | TextMessage (s : String)

/-- Spkg (src/src/lib.rs). -/
structure Spkg where
  name : String
  url : String

/-- Endpoint (src/src/lib.rs). -/
structure Endpoint where
  name : String
  url : String

/-- UserConfig (src/src/lib.rs). -/
structure UserConfig where
  substream_list : List Spkg
  selected_substream : Nat
  endpoint_list : List Endpoint
  selected_endpoint : Nat
  selected_module : String

/-- EditorConfig (src/src/lib.rs). -/
structure EditorConfig where
  module_name : String
  substream_package : String
  substream_endpoint : String
  stream_start_block : Int
  stream_stop_block : Nat

/-- EditorViews (src/src/lib.rs). -/
structure EditorViews where
  show_config : Bool
  show_full_source : Bool
  show_null_json : Bool
  show_modules : Bool
  show_messages : Bool
  show_user_config : Bool
  show_block_cache : Bool

/-- EditorState (src/src/lib.rs): the persisted fields. The four
serde-skipped channel handles are runtime resources of the message bus and
carry no state observed by source_file. -/
structure EditorState where
  template_repo_path : String
  substreams_api_key : String
  user_config : UserConfig
  block_cache : BlockCache
  editor_config : EditorConfig
  view_config : EditorViews
  abis : List (String × String)
  messages : List MessageKind
  message_search : String
  modules : ModuleMap
  display_welcome_message : Bool

/-- EditorState::source_file: reads only the modules field. -/
def EditorState.sourceFile (s : EditorState) : Except String String :=
  source_file s.modules

/-- build_and_run (src/src/lib.rs), parametric in the rhai engine operations:
compile_with_scope borrows the scope immutably, optimize_ast produces the
optimized unit, the += merges it into main_ast, and
eval_ast_with_scope may mutate the scope. Returns (result, scope, main_ast)
after the call. -/
def build_and_run {σ α δ ε : Type}
    (compile : σ → String → Except ε α)
    (optimize : σ → α → α)
    (evalAst : σ → α → Except ε δ × σ)
    (mergeAst : α → α → α)
    (scope : σ) (code : String) (main_ast : α) :
    Except ε δ × σ × α :=
  match compile scope code with
  | .error e => (.error e, scope, main_ast)
  | .ok r =>
    let ast := optimize scope r
    let main2 := mergeAst main_ast ast
    let res := evalAst scope main2
    (res.1, res.2, main2)

/-- The Rust Debug rendering of a Result value, as used by
format!("Result: \x7b:?\x7d", result). -/
def debugResult {δ ε : Type} (reprD : δ → String) (reprE : ε → String) :
    Except ε δ → String
  | .ok d => "Ok(" ++ reprD d ++ ")"
  | .error e => "Err(" ++ reprE e ++ ")"

/-- The WorkerMessage::Eval arm of the worker loop (src/src/lib.rs): run
build_and_run and push one formatted Result message. Returns the outbound
messages and the scope and accumulated unit after the request. -/
def evalHandler {σ α δ ε : Type}
    (compile : σ → String → Except ε α)
    (optimize : σ → α → α)
    (evalAst : σ → α → Except ε δ × σ)
    (mergeAst : α → α → α)
    (reprD : δ → String) (reprE : ε → String)
    (scope : σ) (main_ast : α) (code : String) :
    List GuiMessage × σ × α :=
  match build_and_run compile optimize evalAst mergeAst scope code main_ast with
  | (result, scope2, ast2) =>
    ([GuiMessage.PushMessage ("Result: " ++ debugResult reprD reprE result)],
     scope2, ast2)

/-- The WorkerMessage::EvalWithArgs arm of the worker loop (src/src/lib.rs):
deserialize each arg independently with filter_map (a failing arg is
dropped), call the named function, and push PushJson on success or an
"Error: " PushMessage on failure. callFn may mutate the scope. -/
def evalWithArgsHandler {σ α δ ε : Type}
    (deser : Value → Option δ)
    (callFn : σ → α → String → List δ → Except ε δ × σ)
    (toJsonPretty : δ → String) (reprE : ε → String)
    (scope : σ) (main_ast : α) (fn_name : String) (args : List Value) :
    List GuiMessage × σ :=
  match callFn scope main_ast fn_name (args.filterMap deser) with
  | (.ok result, scope2) =>
      ([GuiMessage.PushJson (toJsonPretty result)], scope2)
  | (.error err, scope2) =>
      ([GuiMessage.PushMessage ("Error: " ++ reprE err)], scope2)

/-- The StreamMessages::Run arm of the streaming loop (src/src/lib.rs).
The streaming client is abstracted by the outcome of start_stream_channel:
none is a session-open failure, some records is the finite sequence the
channel yields before closing. Returns the outbound messages for the
request in send order. -/
def runHandler (start : Int) (stop : Nat) (sessionOpen : Option (List String)) :
    List GuiMessage :=
  let start_message := "Starting stream from " ++ toString start ++ " to "
    ++ toString stop
  (match sessionOpen with
   | some records =>
       GuiMessage.PushMessage start_message ::
         records.map (fun data => GuiMessage.PushJson data)
   | none => [GuiMessage.PushMessage "Failed to start stream"])
  ++ [GuiMessage.PushMessage "Stream Completed Successfully"]

/-! Helper notions used to state and prove the claims. -/

/-- The descriptor a resolved module input generates: map-kind for a Map,
store-kind for a Store (the Some arms of generate_input_code). -/
def module_descriptor : Module → String
  | .Map name _ _ _ => "#\x7bkind: \"map\", name: \"" ++ name ++ "\"\x7d"
  | .Store name _ _ _ _ => "#\x7bkind: \"store\", name: \"" ++ name ++ "\"\x7d"

/-- The descriptor of the source sentinel input. -/
def source_descriptor : String := "#\x7bkind: \"source\"\x7d"

/-- The total resolver on inputs that do resolve: the ok value of
generate_input_code. -/
def descriptor_text (input : String) (module_map : ModuleMap) : String :=
  match module_map.find? (fun p => p.2.name == input) with
  | some (_, m) => module_descriptor m
  | none => source_descriptor

/-- An input resolves when it names a module of the graph or is the source
sentinel BLOCK. -/
def resolves (input : String) (module_map : ModuleMap) : Prop :=
  input = "BLOCK" ∨ ∃ p ∈ module_map, p.2.name = input

instance (input : String) (module_map : ModuleMap) :
    Decidable (resolves input module_map) := by
  unfold resolves
  exact inferInstance

/-- Concatenation of a list of strings, in order. -/
def strConcat : List String → String
  | [] => ""
  | s :: rest => s ++ strConcat rest

/-- Does needle occur as a contiguous run inside the haystack list? -/
def subListOf (needle : List Char) : List Char → Bool
  | [] => needle.isEmpty
  | c :: rest => needle.isPrefixOf (c :: rest) || subListOf needle rest

/-- Does needle occur as a substring of haystack? -/
def strContainsStr (haystack needle : String) : Bool :=
  subListOf needle.data haystack.data

theorem isPrefixOf_self {α : Type} [BEq α] [LawfulBEq α] (l : List α) :
    l.isPrefixOf l = true := by
  induction l with
  | nil => rfl
  | cons a as ih => simp [List.isPrefixOf, ih]

theorem subListOf_append_self (pre needle : List Char) :
    subListOf needle (pre ++ needle) = true := by
  induction pre with
  | nil =>
    cases needle with
    | nil => rfl
    | cons c rest => simp [subListOf, isPrefixOf_self]
  | cons c pre ih => simp [subListOf, ih]

theorem strContainsStr_append_right (a b : String) :
    strContainsStr (a ++ b) b = true := by
  unfold strContainsStr
  rw [String.data_append]
  exact subListOf_append_self a.data b.data

theorem generate_input_code_ok_of_resolves (input : String) (mm : ModuleMap)
    (h : resolves input mm) :
    generate_input_code input mm = .ok (descriptor_text input mm) := by
  unfold generate_input_code descriptor_text
  cases hf : mm.find? (fun p => p.2.name == input) with
  | some p =>
    obtain ⟨k, m⟩ := p
    cases m <;> rfl
  | none =>
    rcases h with h | ⟨p, hp, hname⟩
    · subst h
      simp [source_descriptor]
    · rw [List.find?_eq_none] at hf
      exact absurd (by simpa using hname) (by simpa using hf p hp)

theorem generate_input_code_error_of_not_resolves (input : String)
    (mm : ModuleMap) (h : ¬ resolves input mm) :
    generate_input_code input mm = .error ("Unknown input: " ++ input) := by
  unfold resolves at h
  push_neg at h
  obtain ⟨hb, hmem⟩ := h
  unfold generate_input_code
  have hf : mm.find? (fun p => p.2.name == input) = none := by
    rw [List.find?_eq_none]
    intro p hp
    simpa using hmem p hp
  rw [hf]
  simp [hb]

theorem generate_input_code_error_elim (input : String) (mm : ModuleMap)
    (e : String) (h : generate_input_code input mm = .error e) :
    ¬ resolves input mm ∧ e = "Unknown input: " ++ input := by
  by_cases hr : resolves input mm
  · rw [generate_input_code_ok_of_resolves input mm hr] at h
    exact absurd h (by simp)
  · rw [generate_input_code_error_of_not_resolves input mm hr] at h
    exact ⟨hr, by injection h with h2; exact h2.symm⟩

theorem mapExcept_eq_map {α β ε : Type} (f : α → Except ε β) (g : α → β)
    (l : List α) (h : ∀ a ∈ l, f a = .ok (g a)) :
    mapExcept f l = .ok (l.map g) := by
  induction l with
  | nil => rfl
  | cons a as ih =>
    have ha := h a (List.mem_cons_self a as)
    have has := fun x hx => h x (List.mem_cons_of_mem a hx)
    simp [mapExcept, ha, ih has]

theorem mapExcept_error_mem {α β ε : Type} (f : α → Except ε β) (l : List α)
    (e : ε) (h : mapExcept f l = .error e) : ∃ a ∈ l, f a = .error e := by
  induction l with
  | nil => exact absurd h (by simp [mapExcept])
  | cons a as ih =>
    rw [mapExcept] at h
    cases hfa : f a with
    | error e1 =>
      rw [hfa] at h
      injection h with h2
      exact ⟨a, List.mem_cons_self a as, by rw [hfa, h2]⟩
    | ok b =>
      rw [hfa] at h
      cases hma : mapExcept f as with
      | error e2 =>
        rw [hma] at h
        injection h with h2
        obtain ⟨x, hx, hfx⟩ := ih (by rw [hma, h2])
        exact ⟨x, List.mem_cons_of_mem a hx, hfx⟩
      | ok bs => rw [hma] at h; exact absurd h (by simp)

theorem mapExcept_ok_mem {α β ε : Type} (f : α → Except ε β) (l : List α)
    (bs : List β) (h : mapExcept f l = .ok bs) :
    ∀ a ∈ l, ∃ b, f a = .ok b := by
  induction l generalizing bs with
  | nil => intro a ha; exact absurd ha (by simp)
  | cons x as ih =>
    intro a ha
    rw [mapExcept] at h
    cases hfx : f x with
    | error e1 => rw [hfx] at h; exact absurd h (by simp)
    | ok b =>
      rw [hfx] at h
      cases hma : mapExcept f as with
      | error e2 => rw [hma] at h; exact absurd h (by simp)
      | ok bs2 =>
        rcases List.mem_cons.mp ha with rfl | hmem
        · exact ⟨b, hfx⟩
        · exact ih bs2 hma a hmem

/-- The registration text a module generates once all its inputs resolve. -/
def registration_text (m : Module) (mm : ModuleMap) : String :=
  registration_format (register_function m) m.name
    (String.intercalate "," (m.inputs.map (fun i => descriptor_text i mm)))

theorem register_module_ok (m : Module) (mm : ModuleMap)
    (h : ∀ input ∈ m.inputs, resolves input mm) :
    register_module m mm = .ok (registration_text m mm) := by
  unfold register_module registration_text
  rw [mapExcept_eq_map (fun input => generate_input_code input mm)
    (fun i => descriptor_text i mm) m.inputs
    (fun i hi => generate_input_code_ok_of_resolves i mm (h i hi))]

theorem register_module_ok_elim (m : Module) (mm : ModuleMap) (r : String)
    (h : register_module m mm = .ok r) :
    ∀ input ∈ m.inputs, resolves input mm := by
  intro input hin
  unfold register_module at h
  cases hme : mapExcept (fun input => generate_input_code input mm) m.inputs with
  | error e => rw [hme] at h; exact absurd h (by simp)
  | ok codes =>
    obtain ⟨d, hd⟩ := mapExcept_ok_mem _ _ _ hme input hin
    by_contra hnr
    rw [generate_input_code_error_of_not_resolves input mm hnr] at hd
    exact absurd hd (by simp)

theorem register_module_error_elim (m : Module) (mm : ModuleMap) (e : String)
    (h : register_module m mm = .error e) :
    ∃ input ∈ m.inputs, ¬ resolves input mm ∧
      e = "Unknown input: " ++ input := by
  unfold register_module at h
  cases hme : mapExcept (fun input => generate_input_code input mm) m.inputs with
  | error e1 =>
    rw [hme] at h
    injection h with h2
    obtain ⟨input, hin, herr⟩ := mapExcept_error_mem _ _ _ hme
    obtain ⟨hnr, heq⟩ := generate_input_code_error_elim input mm e1 herr
    exact ⟨input, hin, hnr, h2 ▸ heq⟩
  | ok codes => rw [hme] at h; exact absurd h (by simp)

theorem source_file_loop_ok (mm : ModuleMap) (acc : String) (todo : ModuleMap)
    (h : ∀ p ∈ todo, ∀ input ∈ p.2.inputs, resolves input mm) :
    source_file_loop mm acc todo =
      .ok (acc ++ strConcat (todo.map (fun p =>
        registration_text p.2 mm ++ p.2.code ++ "\n"))) := by
  induction todo generalizing acc with
  | nil => simp [source_file_loop, strConcat]
  | cons p rest ih =>
    rw [source_file_loop]
    simp only [register_module_ok p.2 mm (h p (List.mem_cons_self p rest))]
    rw [ih _ (fun q hq => h q (List.mem_cons_of_mem p hq))]
    simp [strConcat, String.append_assoc]

theorem source_file_loop_error (mm : ModuleMap) (acc : String)
    (todo : ModuleMap)
    (h : ∃ p ∈ todo, ∃ input ∈ p.2.inputs, ¬ resolves input mm) :
    ∃ input, (∃ p ∈ todo, input ∈ p.2.inputs) ∧ ¬ resolves input mm ∧
      source_file_loop mm acc todo =
        .error ("Unknown input: " ++ input) := by
  induction todo generalizing acc with
  | nil => obtain ⟨p, hp, _⟩ := h; exact absurd hp (by simp)
  | cons q rest ih =>
    rw [source_file_loop]
    cases hreg : register_module q.2 mm with
    | error e =>
      obtain ⟨input, hin, hnr, heq⟩ := register_module_error_elim q.2 mm e hreg
      exact ⟨input, ⟨q, List.mem_cons_self q rest, hin⟩, hnr, by
        simp only [hreg, heq]⟩
    | ok reg =>
      obtain ⟨p, hp, i, hi, hnr⟩ := h
      rcases List.mem_cons.mp hp with rfl | hmem
      · exact absurd (register_module_ok_elim p.2 mm reg hreg i hi) hnr
      · obtain ⟨input, ⟨p2, hp2, hin2⟩, hnr2, hloop⟩ :=
          ih (acc ++ reg ++ q.2.code ++ "\n") ⟨p, hmem, i, hi, hnr⟩
        refine ⟨input, ⟨p2, List.mem_cons_of_mem q hp2, hin2⟩, hnr2, ?_⟩
        simp only [hreg]
        exact hloop

/-- A concrete two-module graph: the scenario of the spec. -/
def demoGraph : ModuleMap :=
  [(1, Module.Map "foo" "FOOBODY" ["BLOCK"] true),
   (2, Module.Store "bar" "BARBODY" ["foo"] "set" true)]

/-- A concrete graph with one unresolvable input. -/
def badGraph : ModuleMap :=
  [(7, Module.Map "mymod" "MYBODY" ["nope"] true)]

theorem module_descriptor_ne_source (m : Module) :
    module_descriptor m ≠ source_descriptor := by
  have hmap : ("#\x7bkind: \"map\", name: \"" : String).length = 22 := rfl
  have hstore : ("#\x7bkind: \"store\", name: \"" : String).length = 24 := rfl
  have hq : ("\"\x7d" : String).length = 2 := rfl
  have hsrc : source_descriptor.length = 17 := rfl
  cases m with
  | Map name code inputs editing =>
    intro h
    have hl := congrArg String.length h
    simp only [module_descriptor, String.length_append, hmap, hq, hsrc] at hl
    omega
  | Store name code inputs update_policy editing =>
    intro h
    have hl := congrArg String.length h
    simp only [module_descriptor, String.length_append, hstore, hq, hsrc] at hl
    omega

/-! The claims. -/

/-- Claim C1: for every graph in which each declared input of each module
resolves (to another module name or to the source sentinel BLOCK),
generation succeeds and produces exactly one registration statement per
module, in iteration order, each using add_mfn for a Map and add_sfn for a
Store, with a descriptor list obtained by resolving the declared inputs one
by one (hence exactly as many descriptors as declared inputs, in declared
order) and with the handler field equal to the module name (the
registration template uses the name for both fields). -/
theorem c1_one_registration_per_module (modules : ModuleMap)
    (hres : ∀ p ∈ modules, ∀ input ∈ p.2.inputs, resolves input modules) :
    (∀ p ∈ modules,
      register_module p.2 modules =
        .ok (registration_format (register_function p.2) p.2.name
          (String.intercalate ","
            (p.2.inputs.map (fun i => descriptor_text i modules)))) ∧
      (p.2.inputs.map (fun i => descriptor_text i modules)).length
        = p.2.inputs.length) ∧
    source_file modules = .ok (strConcat (modules.map (fun p =>
      registration_text p.2 modules ++ p.2.code ++ "\n"))) := by
  constructor
  · intro p hp
    exact ⟨register_module_ok p.2 modules (hres p hp), by simp⟩
  · unfold source_file
    rw [source_file_loop_ok modules "" modules hres, String.empty_append]

/-- Witness for C1 at a concrete two-module graph. -/
theorem c1_witness :
    (∀ p ∈ demoGraph, ∀ input ∈ p.2.inputs, resolves input demoGraph) ∧
    ((∀ p ∈ demoGraph,
      register_module p.2 demoGraph =
        .ok (registration_format (register_function p.2) p.2.name
          (String.intercalate ","
            (p.2.inputs.map (fun i => descriptor_text i demoGraph)))) ∧
      (p.2.inputs.map (fun i => descriptor_text i demoGraph)).length
        = p.2.inputs.length) ∧
    source_file demoGraph = .ok (strConcat (demoGraph.map (fun p =>
      registration_text p.2 demoGraph ++ p.2.code ++ "\n")))) :=
  ⟨by decide, c1_one_registration_per_module demoGraph (by decide)⟩

/-- Claim C2 counterexample: at the one-module graph with module "mymod" and
the unresolvable input "nope", generation aborts with the message
"Unknown input: nope", which names the offending input but does not mention
the offending module "mymod" anywhere — so the error does not identify the
offending module as the claim requires. -/
theorem c2_counterexample :
    source_file badGraph = .error "Unknown input: nope" ∧
    strContainsStr "Unknown input: nope" "nope" = true ∧
    strContainsStr "Unknown input: nope" "mymod" = false := by
  exact ⟨rfl, rfl, rfl⟩

/-- Claim C2 as amended: for every graph containing a module with a declared
input that matches neither another module name nor the sentinel BLOCK,
generation fails for the whole graph with a descriptive error identifying
the offending input (though not the offending module), and produces no
partial generated text. -/
theorem c2_fail_identifies_input (modules : ModuleMap)
    (h : ∃ p ∈ modules, ∃ input ∈ p.2.inputs, ¬ resolves input modules) :
    ∃ input, (∃ p ∈ modules, input ∈ p.2.inputs) ∧ ¬ resolves input modules ∧
      source_file modules = .error ("Unknown input: " ++ input) ∧
      strContainsStr ("Unknown input: " ++ input) input = true ∧
      ∀ out, source_file modules ≠ .ok out := by
  obtain ⟨input, hmem, hnr, hloop⟩ := source_file_loop_error modules "" modules h
  have hsf : source_file modules = .error ("Unknown input: " ++ input) := by
    unfold source_file
    exact hloop
  refine ⟨input, hmem, hnr, hsf, strContainsStr_append_right _ _, ?_⟩
  intro out hok
  rw [hsf] at hok
  exact absurd hok (by simp)

/-- Witness for C2 at the concrete bad graph. -/
theorem c2_witness :
    (∃ p ∈ badGraph, ∃ input ∈ p.2.inputs, ¬ resolves input badGraph) ∧
    (∃ input, (∃ p ∈ badGraph, input ∈ p.2.inputs) ∧ ¬ resolves input badGraph ∧
      source_file badGraph = .error ("Unknown input: " ++ input) ∧
      strContainsStr ("Unknown input: " ++ input) input = true ∧
      ∀ out, source_file badGraph ≠ .ok out) :=
  ⟨by decide, c2_fail_identifies_input badGraph (by decide)⟩

/-- Claim C3: for every cache state and JSON value, get immediately after
set on the same slot returns that value for each slot 1 through 4, and get
on a slot of a freshly created cache (every slot defaults to JSON null)
returns null. -/
theorem c3_cache_roundtrip (c : BlockCache) (v : Value) (slot : Nat)
    (h : slot = 1 ∨ slot = 2 ∨ slot = 3 ∨ slot = 4) :
    (c.set slot v).get slot = v ∧ BlockCache.new.get slot = Value.null := by
  rcases h with rfl | rfl | rfl | rfl <;> exact ⟨rfl, rfl⟩

/-- Witness for C3 at slot 2. -/
theorem c3_witness :
    (2 = 1 ∨ 2 = 2 ∨ 2 = 3 ∨ 2 = 4) ∧
    ((BlockCache.new.set 2 (Value.str "x")).get 2 = Value.str "x" ∧
      BlockCache.new.get 2 = Value.null) :=
  ⟨by decide, c3_cache_roundtrip BlockCache.new (Value.str "x") 2 (by decide)⟩

/-- Claim C9: for every u8 slot outside 1..4 (slot 0 or slot at least 5) and
every cache state, set leaves the cache entirely unchanged and get returns
JSON null; both take the total wildcard arm, so neither panics. -/
theorem c9_invalid_slot (c : BlockCache) (v : Value) (slot : Nat)
    (hrange : slot < 256) (h : slot = 0 ∨ 5 ≤ slot) :
    c.set slot v = c ∧ c.get slot = Value.null := by
  rcases h with rfl | h5
  · exact ⟨rfl, rfl⟩
  · obtain ⟨k, rfl⟩ : ∃ k, slot = k + 5 := ⟨slot - 5, by omega⟩
    exact ⟨rfl, rfl⟩

/-- Witness for C9 at slot 0. -/
theorem c9_witness :
    (0 < 256 ∧ ((0 : Nat) = 0 ∨ 5 ≤ 0)) ∧
    (BlockCache.new.set 0 (Value.str "x") = BlockCache.new ∧
      BlockCache.new.get 0 = Value.null) :=
  ⟨⟨by decide, by decide⟩,
    c9_invalid_slot BlockCache.new (Value.str "x") 0 (by decide) (by decide)⟩

/-- Claim C4: source generation is deterministic — it is a pure function of
the module graph alone, so two generations over the same unmodified graph
(whatever the rest of the editor state does in between) return byte-identical
text. -/
theorem c4_generation_deterministic (s1 s2 : EditorState)
    (h : s1.modules = s2.modules) :
    s1.sourceFile = s2.sourceFile := by
  unfold EditorState.sourceFile
  rw [h]

/-- A concrete editor state over the demo graph; the path parameter varies
state that source generation must ignore. -/
def demoState (path : String) : EditorState :=
  { template_repo_path := path
    substreams_api_key := ""
    user_config := ⟨[⟨"Uniswap v3", "u"⟩], 0, [⟨"Pinax Mainnet", "p"⟩], 0,
      "graph_out"⟩
    block_cache := BlockCache.new
    editor_config := ⟨"graph_out", "pkg", "ep", 12369621, 12369631⟩
    view_config := ⟨false, false, false, true, true, false, false⟩
    abis := []
    messages := []
    message_search := ""
    modules := demoGraph
    display_welcome_message := true }

/-- Witness for C4: two states sharing the graph but differing elsewhere. -/
theorem c4_witness :
    (demoState "a").modules = (demoState "b").modules ∧
    (demoState "a").sourceFile = (demoState "b").sourceFile :=
  ⟨rfl, c4_generation_deterministic (demoState "a") (demoState "b") rfl⟩

/-- Claim C10: input resolution checks module names before the sentinel.
The source descriptor is produced exactly when no module of the graph is
named BLOCK, and whenever the name search finds a module named BLOCK the
input BLOCK resolves to that module's map- or store-kind descriptor, which
is never the source descriptor. -/
theorem c10_module_named_block_shadows_sentinel (modules : ModuleMap) :
    ((∀ p ∈ modules, p.2.name ≠ "BLOCK") ↔
      generate_input_code "BLOCK" modules = .ok source_descriptor) ∧
    (∀ p, modules.find? (fun q => q.2.name == "BLOCK") = some p →
      generate_input_code "BLOCK" modules = .ok (module_descriptor p.2) ∧
      module_descriptor p.2 ≠ source_descriptor) := by
  have hsome : ∀ p, modules.find? (fun q => q.2.name == "BLOCK") = some p →
      generate_input_code "BLOCK" modules = .ok (module_descriptor p.2) := by
    intro p hf
    obtain ⟨k, m⟩ := p
    unfold generate_input_code
    rw [hf]
    cases m <;> rfl
  constructor
  · constructor
    · intro hall
      have hf : modules.find? (fun q => q.2.name == "BLOCK") = none := by
        rw [List.find?_eq_none]
        intro q hq
        simpa using hall q hq
      unfold generate_input_code
      rw [hf]
      simp [source_descriptor]
    · intro hgic p hp hname
      have hex : ∃ q ∈ modules, (fun q : Int × Module => q.2.name == "BLOCK") q := by
        exact ⟨p, hp, by simp [hname]⟩
      obtain ⟨q, hfq⟩ := Option.isSome_iff_exists.mp
        (List.find?_isSome.mpr hex)
      rw [hsome q hfq] at hgic
      injection hgic with h2
      exact module_descriptor_ne_source q.2 h2
  · intro p hf
    exact ⟨hsome p hf, module_descriptor_ne_source p.2⟩

/-- Claim C6: for the two-module graph with Map foo reading the source
sentinel and Store bar reading foo (policy set), generation emits the
add_mfn registration of foo with a single source-kind descriptor, then the
foo code body, then the add_sfn registration of bar with a single map-kind
descriptor named foo, then the bar code body, in that order. -/
theorem c6_two_module_scenario (fooCode barCode : String) :
    source_file
      [(1, Module.Map "foo" fooCode ["BLOCK"] true),
       (2, Module.Store "bar" barCode ["foo"] "set" true)] =
    .ok (String.join
      ["\nadd_mfn(#\x7b\n    name: \"foo\",\n    inputs: [#\x7bkind: \"source\"\x7d],\n    handler: \"foo\"\n\x7d);\n",
       fooCode, "\n",
       "\nadd_sfn(#\x7b\n    name: \"bar\",\n    inputs: [#\x7bkind: \"map\", name: \"foo\"\x7d],\n    handler: \"bar\"\n\x7d);\n",
       barCode, "\n"]) := rfl

/-- Claim C5 counterexample: a RunRange request whose session open fails
produces two outbound messages, not one — the failure notice is followed by
the unconditional completion notice, which the loop sends after the if/else
regardless of the outcome. -/
theorem c5_counterexample :
    runHandler 0 0 none =
      [GuiMessage.PushMessage "Failed to start stream",
       GuiMessage.PushMessage "Stream Completed Successfully"] ∧
    (runHandler 0 0 none).length ≠ 1 :=
  ⟨rfl, by decide⟩

/-- Claim C5 as amended: for every RunRange request whose session open
fails, the Streaming Worker emits exactly two outbound messages — one
TextMessage failure notice followed by one TextMessage completion notice —
and drops the request with no retry and no record forwarded. -/
theorem c5_failure_two_notices (start : Int) (stop : Nat) :
    runHandler start stop none =
      [GuiMessage.PushMessage "Failed to start stream",
       GuiMessage.PushMessage "Stream Completed Successfully"] := rfl

/-- Claim C7: for every Evaluate request whose script text fails to compile,
the Execution Worker emits exactly one outbound message — the Debug-formatted
Err result, a TextMessage carrying the error — and both the persistent scope
and the accumulated compiled unit are unchanged by the request (the compile
step borrows the scope immutably and the merge and evaluation steps never
run). -/
theorem c7_eval_compile_error {σ α δ ε : Type}
    (compile : σ → String → Except ε α) (optimize : σ → α → α)
    (evalAst : σ → α → Except ε δ × σ) (mergeAst : α → α → α)
    (reprD : δ → String) (reprE : ε → String)
    (scope : σ) (main_ast : α) (code : String) (e : ε)
    (h : compile scope code = .error e) :
    evalHandler compile optimize evalAst mergeAst reprD reprE
        scope main_ast code =
      ([GuiMessage.PushMessage ("Result: Err(" ++ reprE e ++ ")")],
        scope, main_ast) := by
  unfold evalHandler build_and_run
  rw [h]
  rfl

/-- Witness for C7: a compiler stub that rejects every script. -/
theorem c7_witness :
    ((fun (_ : Unit) (_ : String) => (Except.error "syntax error" :
        Except String Unit)) () "bogus syntax" = Except.error "syntax error") ∧
    evalHandler (fun (_ : Unit) (_ : String) => (Except.error "syntax error" :
        Except String Unit))
      (fun _ a => a) (fun s a => (Except.ok a, s)) (fun a _ => a)
      (fun _ => "()") (fun e => e) () () "bogus syntax" =
      ([GuiMessage.PushMessage ("Result: Err(" ++ "syntax error" ++ ")")],
        (), ()) :=
  ⟨rfl,
    c7_eval_compile_error
      (fun (_ : Unit) (_ : String) => (Except.error "syntax error" :
        Except String Unit))
      (fun _ a => a) (fun s a => (Except.ok a, s)) (fun a _ => a)
      (fun _ => "()") (fun e => e) () () "bogus syntax" "syntax error" rfl⟩

/-- Claim C8: each argument of an EvaluateFunction request is deserialized
independently and an argument that fails to deserialize is silently dropped
from the call — removing such an argument from the request changes nothing —
while the worker emits one PushJson (a JsonMessage) when the call succeeds
and one PushMessage beginning with "Error: " when it fails. -/
theorem c8_args_dropped_and_reported {σ α δ ε : Type}
    (deser : Value → Option δ)
    (callFn : σ → α → String → List δ → Except ε δ × σ)
    (toJsonPretty : δ → String) (reprE : ε → String)
    (scope : σ) (main_ast : α) (fn_name : String)
    (pre post : List Value) (bad : Value)
    (hbad : deser bad = none) :
    evalWithArgsHandler deser callFn toJsonPretty reprE scope main_ast fn_name
        (pre ++ bad :: post) =
      evalWithArgsHandler deser callFn toJsonPretty reprE scope main_ast
        fn_name (pre ++ post) ∧
    (∀ (args : List Value) (d : δ) (s2 : σ),
      callFn scope main_ast fn_name (args.filterMap deser) = (.ok d, s2) →
      evalWithArgsHandler deser callFn toJsonPretty reprE scope main_ast
          fn_name args =
        ([GuiMessage.PushJson (toJsonPretty d)], s2)) ∧
    (∀ (args : List Value) (er : ε) (s2 : σ),
      callFn scope main_ast fn_name (args.filterMap deser) = (.error er, s2) →
      evalWithArgsHandler deser callFn toJsonPretty reprE scope main_ast
          fn_name args =
        ([GuiMessage.PushMessage ("Error: " ++ reprE er)], s2)) := by
  refine ⟨?_, ?_, ?_⟩
  · have hsame : (pre ++ bad :: post).filterMap deser
        = (pre ++ post).filterMap deser := by
      simp [hbad]
    unfold evalWithArgsHandler
    rw [hsame]
  · intro args d s2 hc
    unfold evalWithArgsHandler
    rw [hc]
  · intro args er s2 hc
    unfold evalWithArgsHandler
    rw [hc]

/-- Demo deserializer for the C8 witness: accepts numbers only. -/
def demoDeser : Value → Option Nat
  | .num n => some n.toNat
  | _ => none

/-- Demo function-call stub for the C8 witness: returns the argument
count. -/
def demoCallFn (s : Unit) (_ : Unit) (_ : String) (args : List Nat) :
    Except String Nat × Unit := (.ok args.length, s)

/-- Witness for C8: the null argument fails to deserialize and is dropped
from the call. -/
theorem c8_witness :
    demoDeser Value.null = none ∧
    (evalWithArgsHandler demoDeser demoCallFn (fun n => toString n)
        (fun e => e) () () "f" ([Value.num 1] ++ Value.null :: [Value.num 2]) =
      evalWithArgsHandler demoDeser demoCallFn (fun n => toString n)
        (fun e => e) () () "f" ([Value.num 1] ++ [Value.num 2]) ∧
    (∀ (args : List Value) (d : Nat) (s2 : Unit),
      demoCallFn () () "f" (args.filterMap demoDeser) = (.ok d, s2) →
      evalWithArgsHandler demoDeser demoCallFn (fun n => toString n)
          (fun e => e) () () "f" args =
        ([GuiMessage.PushJson (toString d)], s2)) ∧
    (∀ (args : List Value) (er : String) (s2 : Unit),
      demoCallFn () () "f" (args.filterMap demoDeser) = (.error er, s2) →
      evalWithArgsHandler demoDeser demoCallFn (fun n => toString n)
          (fun e => e) () () "f" args =
        ([GuiMessage.PushMessage ("Error: " ++ er)], s2))) :=
  ⟨rfl,
    c8_args_dropped_and_reported demoDeser demoCallFn (fun n => toString n)
      (fun e => e) () () "f" [Value.num 1] [Value.num 2] Value.null rfl⟩

end Streamline
